import Mathlib

/-!
Verification of the wardstone cryptographic-primitive compliance engine.

Shallow embedding of:
  - src/standards/nist.rs (validate_hash, validate_symmetric and the
    C-callable wrappers ws_nist_validate_hash, ws_nist_validate_symmetric);
  - src/primitives/ecc.rs (the Ecc struct and its named curve constants);
  - crates/cmd/src/assess.rs (the Guide selector, Status and the x509
    assessor).

Machine integers (u16) are embedded as Nat: every operation involved
(shift right by one, order comparisons, equality) agrees with the u16
operation on the u16 range, and no arithmetic here can overflow.
Fallible code returns Except, mirroring the Rust Result type with the
same payload types (Result of T and E becomes Except E T). Raw pointers
at the C boundary are embedded as Option values: none is the null
pointer, some v is a pointer to a cell holding v; each wrapper returns
the status code paired with the final contents of the output cell.
Printing is an elided side effect: the assessor additionally returns a
trace of events, one per executed check (with the result of the check)
and one for a parse failure, which models both the control flow and the
diagnostics stream of the source.
-/

namespace Wardstone

/-- Modelled from the spec: the Hash primitive struct of
src/primitives/hash.rs, which is not among the provided sources. The
spec gives Hash with a u16 output size in bits; the field is named n as
it is accessed by validate_hash in src/standards/nist.rs. -/
structure Hash where
  n : Nat
deriving DecidableEq

/-- Modelled from the spec: the named constant SHA256 of the fixed hash
catalog (src/primitives/hash.rs is not among the provided sources); its
output size is 256 bits. -/
def SHA256 : Hash := ⟨256⟩

/-- Modelled from the spec: the Symmetric primitive struct of
src/primitives/symmetric.rs, which is not among the provided sources.
The spec gives a u16 security strength held directly; the field is named
security as it is accessed by validate_symmetric in
src/standards/nist.rs. -/
structure Symmetric where
  security : Nat
deriving DecidableEq

/-- Modelled from the spec: the named constant AES128 of the fixed
symmetric catalog (src/primitives/symmetric.rs is not among the provided
sources); its security strength is 128 bits. -/
def AES128 : Symmetric := ⟨128⟩

/-- Embeds CUTOFF_YEAR from src/standards/nist.rs. -/
def CUTOFF_YEAR : Nat := 2023

/-- Embeds validate_hash from src/standards/nist.rs: security is the
output size shifted right by one; at most 111 yields Err(SHA256), at
least 112 yields Ok(true). -/
def validate_hash (hash : Hash) : Except Hash Bool :=
  let security := hash.n >>> 1
  if security ≤ 111 then Except.error SHA256 else Except.ok true

/-- Embeds validate_symmetric from src/standards/nist.rs. The source is
a match on key.security whose arms are tried in order: 112 guarded by
expiry at most CUTOFF_YEAR yields Ok(()), then at most 127 yields
Err(AES128), then at least 128 yields Ok(()). -/
def validate_symmetric (key : Symmetric) (expiry : Nat) : Except Symmetric Unit :=
  if key.security = 112 ∧ expiry ≤ CUTOFF_YEAR then Except.ok ()
  else if key.security ≤ 127 then Except.error AES128
  else Except.ok ()

/-- Embeds ws_nist_validate_hash from src/standards/nist.rs. A null hash
pointer returns -1; otherwise the result of validate_hash is marshaled:
Ok(b) returns b as c_int, Err(r) writes r through the alt pointer when
it is not null and returns 0. -/
def ws_nist_validate_hash (hash : Option Hash) (alt : Option Hash) :
    Int × Option Hash :=
  match hash with
  | none => (-1, alt)
  | some hash_ref =>
    match validate_hash hash_ref with
    | Except.ok is_compliant => (if is_compliant then 1 else 0, alt)
    | Except.error r =>
      match alt with
      | none => (0, none)
      | some _ => (0, some r)

/-- Embeds ws_nist_validate_symmetric from src/standards/nist.rs. A null
key pointer returns -1; otherwise Ok yields 1 and Err(r) writes r
through the alternative pointer when it is not null and yields 0. -/
def ws_nist_validate_symmetric (key : Option Symmetric) (expiry : Nat)
    (alternative : Option Symmetric) : Int × Option Symmetric :=
  match key with
  | none => (-1, alternative)
  | some key_ref =>
    match validate_symmetric key_ref expiry with
    | Except.ok _ => (1, alternative)
    | Except.error recommendation =>
      match alternative with
      | none => (0, none)
      | some _ => (0, some recommendation)

/-- Embeds the Ecc struct from src/primitives/ecc.rs, where f is the key
size. -/
structure Ecc where
  f : Nat
deriving DecidableEq

/-- Embeds the named constant P256 from src/primitives/ecc.rs. -/
def P256 : Ecc := ⟨256⟩

/-- Embeds the named constant P384 from src/primitives/ecc.rs. -/
def P384 : Ecc := ⟨384⟩

/-- Modelled from the spec: the Ifc primitive struct (RSA and similar
integer-factorization instances) with its u16 modulus size; its source
file is not among the provided sources. -/
structure Ifc where
  modulus_size_bits : Nat
deriving DecidableEq

/-- Modelled from the spec: the Asymmetric tagged union of Ecc or Ifc
from the cmd adapter module, which is not among the provided sources. -/
inductive Asymmetric where
  | ecc (inst : Ecc)
  | ifc (inst : Ifc)
deriving DecidableEq

/-- Two Asymmetric values belong to the same family when they carry the
same variant tag. -/
def Asymmetric.sameFamily : Asymmetric → Asymmetric → Bool
  | Asymmetric.ecc _, Asymmetric.ecc _ => true
  | Asymmetric.ifc _, Asymmetric.ifc _ => true
  | _, _ => false

/-- Holds when both branches of an Asymmetric validation result stay in
the family of the given input. -/
def preservesFamily (a : Asymmetric) : Except Asymmetric Asymmetric → Bool
  | Except.ok j => j.sameFamily a
  | Except.error j => j.sameFamily a

/-- Modelled from the spec: the Context type holding the evaluation year
(its source file is not among the provided sources); it is immutable and
only passed through to the guideline engines here. -/
structure Context where
  year : Nat
deriving DecidableEq

/-- Modelled from the spec: the validation capability set of one
guideline engine (the Bsi and Cnsa implementations of the Standard trait
are not among the provided sources). Each guideline provides, per
family, a pure operation returning Ok with the accepted instance or Err
with a recommended replacement of the same family. The x509 assessor is
embedded parametrically over these implementations, so every theorem
about it holds for arbitrary Bsi and Cnsa threshold tables. -/
structure StandardImpl where
  validateHash : Context → Hash → Except Hash Hash
  validateEcc : Context → Ecc → Except Ecc Ecc
  validateIfc : Context → Ifc → Except Ifc Ifc

/-- Embeds the Guide enum from crates/cmd/src/assess.rs. -/
inductive Guide where
  | bsi
  | cnsa
deriving DecidableEq

/-- Embeds Guide::validate_hash_function from crates/cmd/src/assess.rs:
dispatch on the guide to the matching standard implementation. -/
def validate_hash_function (bsiImpl cnsaImpl : StandardImpl) (g : Guide)
    (ctx : Context) (hash : Hash) : Except Hash Hash :=
  match g with
  | Guide.bsi => bsiImpl.validateHash ctx hash
  | Guide.cnsa => cnsaImpl.validateHash ctx hash

/-- Embeds Guide::validate_signature_algorithm from
crates/cmd/src/assess.rs: dispatch on the guide, then on the variant tag
of the algorithm, re-wrapping the returned value with the same variant
tag it was given. -/
def validate_signature_algorithm (bsiImpl cnsaImpl : StandardImpl)
    (g : Guide) (ctx : Context) (algorithm : Asymmetric) :
    Except Asymmetric Asymmetric :=
  match g with
  | Guide.bsi =>
    match algorithm with
    | Asymmetric.ecc inst =>
      match bsiImpl.validateEcc ctx inst with
      | Except.ok j => Except.ok (Asymmetric.ecc j)
      | Except.error j => Except.error (Asymmetric.ecc j)
    | Asymmetric.ifc inst =>
      match bsiImpl.validateIfc ctx inst with
      | Except.ok j => Except.ok (Asymmetric.ifc j)
      | Except.error j => Except.error (Asymmetric.ifc j)
  | Guide.cnsa =>
    match algorithm with
    | Asymmetric.ecc inst =>
      match cnsaImpl.validateEcc ctx inst with
      | Except.ok j => Except.ok (Asymmetric.ecc j)
      | Except.error j => Except.error (Asymmetric.ecc j)
    | Asymmetric.ifc inst =>
      match cnsaImpl.validateIfc ctx inst with
      | Except.ok j => Except.ok (Asymmetric.ifc j)
      | Except.error j => Except.error (Asymmetric.ifc j)

/-- Embeds the Status enum from crates/cmd/src/assess.rs; paths are
embedded as strings. -/
inductive Status where
  | ok (path : String)
  | fail (path : String)
deriving DecidableEq

/-- Modelled from the spec: a parsed Certificate (the cmd certificate
module is not among the provided sources) exposes zero-or-one hash
primitive and zero-or-one asymmetric signature primitive; absence is not
an error. -/
structure Certificate where
  hashFunction : Option Hash
  signatureAlgorithm : Option Asymmetric

/-- Modelled from the spec: extraction of the declared digest algorithm
of a certificate. -/
def Certificate.extract_hash_function (c : Certificate) : Option Hash :=
  c.hashFunction

/-- Modelled from the spec: extraction of the declared signature
algorithm of a certificate. -/
def Certificate.extract_signature_algorithm (c : Certificate) :
    Option Asymmetric :=
  c.signatureAlgorithm

/-- One entry of the assessor trace: a parse failure, or one executed
check with the result the guideline engine returned for it. The source
prints a diagnostic line for every failing check (and, when verbose, for
every passing check); the trace records every executed check with its
result, so the printed diagnostics are a function of the trace. -/
inductive Event where
  | parseError (msg : String)
  | hashCheck (result : Except Hash Hash)
  | sigCheck (result : Except Asymmetric Asymmetric)

/-- Whether a trace entry records a failure. -/
def Event.isFail : Event → Bool
  | Event.parseError _ => true
  | Event.hashCheck (Except.error _) => true
  | Event.hashCheck (Except.ok _) => false
  | Event.sigCheck (Except.error _) => true
  | Event.sigCheck (Except.ok _) => false

/-- Embeds the hash-check block of x509 (crates/cmd/src/assess.rs): if a
hash primitive was extracted, validate it; on failure the running result
is demoted to Fail(path); the executed check is recorded in the trace. -/
def hashStep (bsiImpl cnsaImpl : StandardImpl) (guide : Guide)
    (ctx : Context) (path : String) (pass : Status)
    (extracted : Option Hash) : Status × List Event :=
  match extracted with
  | none => (pass, [])
  | some got =>
    match validate_hash_function bsiImpl cnsaImpl guide ctx got with
    | Except.ok want => (pass, [Event.hashCheck (Except.ok want)])
    | Except.error want => (Status.fail path, [Event.hashCheck (Except.error want)])

/-- Embeds the signature-check block of x509 (crates/cmd/src/assess.rs),
analogous to the hash-check block. -/
def sigStep (bsiImpl cnsaImpl : StandardImpl) (guide : Guide)
    (ctx : Context) (path : String) (pass : Status)
    (extracted : Option Asymmetric) : Status × List Event :=
  match extracted with
  | none => (pass, [])
  | some got =>
    match validate_signature_algorithm bsiImpl cnsaImpl guide ctx got with
    | Except.ok want => (pass, [Event.sigCheck (Except.ok want)])
    | Except.error want => (Status.fail path, [Event.sigCheck (Except.error want)])

/-- Embeds x509 from crates/cmd/src/assess.rs. The external PEM parse is
passed in as its result (Err is a parse failure message): on failure the
error is recorded and Fail(path) returned immediately; otherwise the
running result starts at Ok(path) and the two check blocks run in order.
The verbose flag of the source only gates the echo of passing checks to
stdout, an elided side effect, so it does not appear here; the trace
records every executed check regardless. -/
def x509 (bsiImpl cnsaImpl : StandardImpl) (ctx : Context) (path : String)
    (guide : Guide) (parsed : Except String Certificate) :
    Status × List Event :=
  match parsed with
  | Except.error err => (Status.fail path, [Event.parseError err])
  | Except.ok certificate =>
    let pass := Status.ok path
    let afterHash := hashStep bsiImpl cnsaImpl guide ctx path pass
      certificate.extract_hash_function
    let afterSig := sigStep bsiImpl cnsaImpl guide ctx path afterHash.fst
      certificate.extract_signature_algorithm
    (afterSig.fst, afterHash.snd ++ afterSig.snd)

/-- A standard implementation that rejects every primitive, used to
instantiate the parametric assessor theorems on concrete inputs. -/
def rejectAll : StandardImpl :=
  ⟨fun _ _ => Except.error SHA256,
   fun _ _ => Except.error P384,
   fun _ _ => Except.error ⟨3072⟩⟩

/-- A standard implementation that accepts every primitive unchanged,
used to instantiate the parametric assessor theorems on concrete
inputs. -/
def acceptAll : StandardImpl :=
  ⟨fun _ h => Except.ok h,
   fun _ e => Except.ok e,
   fun _ i => Except.ok i⟩

theorem validate_hash_eq (hash : Hash) :
    validate_hash hash =
      if hash.n / 2 ≤ 111 then Except.error SHA256 else Except.ok true := by
  simp [validate_hash, Nat.shiftRight_eq_div_pow]

theorem validate_hash_ok (hash : Hash) (b : Bool)
    (h : validate_hash hash = Except.ok b) : b = true := by
  rw [validate_hash_eq] at h
  by_cases hc : hash.n / 2 ≤ 111
  · rw [if_pos hc] at h
    exact Except.noConfusion h
  · rw [if_neg hc] at h
    exact (Except.ok.inj h).symm

theorem validate_symmetric_eq (key : Symmetric) (expiry : Nat) :
    validate_symmetric key expiry =
      if key.security = 112 ∧ expiry ≤ 2023 then Except.ok ()
      else if key.security ≤ 127 then Except.error AES128
      else Except.ok () := rfl

/-- C1: validate_symmetric returns Ok for strength 112 while the year is
at most 2023, Err(AES128) for strength 112 from 2024 on, Err(AES128) for
any other strength at most 127, and Ok for strength at least 128
regardless of year. -/
theorem C1_validate_symmetric_cases (key : Symmetric) (expiry : Nat) :
    (key.security = 112 → expiry ≤ 2023 → validate_symmetric key expiry = Except.ok ()) ∧
    (key.security = 112 → 2024 ≤ expiry → validate_symmetric key expiry = Except.error AES128) ∧
    (key.security ≤ 127 → ¬(key.security = 112 ∧ expiry ≤ 2023) →
      validate_symmetric key expiry = Except.error AES128) ∧
    (128 ≤ key.security → validate_symmetric key expiry = Except.ok ()) := by
  rw [validate_symmetric_eq]
  refine ⟨?_, ?_, ?_, ?_⟩
  · intro h1 h2
    rw [if_pos ⟨h1, h2⟩]
  · intro h1 h2
    rw [if_neg (by omega), if_pos (by omega)]
  · intro h1 h2
    rw [if_neg h2, if_pos h1]
  · intro h1
    rw [if_neg (by omega), if_neg (by omega)]

theorem C1_witness :
    validate_symmetric ⟨112⟩ 2023 = Except.ok () ∧
    validate_symmetric ⟨112⟩ 2024 = Except.error AES128 ∧
    validate_symmetric ⟨80⟩ 2023 = Except.error AES128 ∧
    validate_symmetric ⟨128⟩ 2024 = Except.ok () :=
  ⟨(C1_validate_symmetric_cases ⟨112⟩ 2023).1 rfl (by decide),
   (C1_validate_symmetric_cases ⟨112⟩ 2024).2.1 rfl (by decide),
   (C1_validate_symmetric_cases ⟨80⟩ 2023).2.2.1 (by decide) (by decide),
   (C1_validate_symmetric_cases ⟨128⟩ 2024).2.2.2 (by decide)⟩

/-- C2: validate_hash computes the security strength as the output size
in bits divided by two rounded down (the shift right by one of the
source), returns Err(SHA256) when that strength is at most 111 and Ok
when it is at least 112. -/
theorem C2_validate_hash_cases (hash : Hash) :
    (hash.n >>> 1 = hash.n / 2) ∧
    (hash.n / 2 ≤ 111 → validate_hash hash = Except.error SHA256) ∧
    (112 ≤ hash.n / 2 → validate_hash hash = Except.ok true) := by
  refine ⟨by simp [Nat.shiftRight_eq_div_pow], ?_, ?_⟩
  · intro h
    simp [validate_hash_eq, h]
  · intro h
    have hc : ¬(hash.n / 2 ≤ 111) := by omega
    simp [validate_hash_eq, hc]

theorem C2_witness :
    (128 >>> 1 = 64) ∧
    validate_hash ⟨128⟩ = Except.error SHA256 ∧
    validate_hash ⟨256⟩ = Except.ok true :=
  ⟨(C2_validate_hash_cases ⟨128⟩).1,
   (C2_validate_hash_cases ⟨128⟩).2.1 (by decide),
   (C2_validate_hash_cases ⟨256⟩).2.2 (by decide)⟩

/-- C5: whenever validate_hash or validate_symmetric returns an Err with
a recommendation, re-validating that recommendation under the same
context returns Ok; in particular the recommendations are SHA256 and
AES128 and both are compliant for every year. -/
theorem C5_recommendation_valid (hash : Hash) (key : Symmetric) (expiry : Nat) :
    (∀ r, validate_hash hash = Except.error r → validate_hash r = Except.ok true) ∧
    (∀ r, validate_symmetric key expiry = Except.error r →
      validate_symmetric r expiry = Except.ok ()) := by
  constructor
  · intro r hr
    have : r = SHA256 := by
      rw [validate_hash_eq] at hr
      by_cases hc : hash.n / 2 ≤ 111 <;> simp [hc] at hr
      exact hr.symm
    subst this
    simp [validate_hash_eq, SHA256]
  · intro r hr
    have : r = AES128 := by
      unfold validate_symmetric at hr
      by_cases hc : key.security = 112 ∧ expiry ≤ CUTOFF_YEAR
      · simp [hc] at hr
      · by_cases hl : key.security ≤ 127 <;> simp [hc, hl] at hr
        exact hr.symm
    subst this
    have hc : ¬(AES128.security = 112 ∧ expiry ≤ CUTOFF_YEAR) := by
      simp [AES128]
    have hl : ¬(AES128.security ≤ 127) := by simp [AES128]
    simp [validate_symmetric, hc, hl]

theorem C5_witness :
    validate_hash SHA256 = Except.ok true ∧
    validate_symmetric AES128 2030 = Except.ok () :=
  ⟨(C5_recommendation_valid ⟨128⟩ ⟨80⟩ 2030).1 SHA256 rfl,
   (C5_recommendation_valid ⟨128⟩ ⟨80⟩ 2030).2 AES128 rfl⟩

/-- C10: validate_hash only ever returns Ok(true) or Err(SHA256), never
Ok(false); consequently ws_nist_validate_hash on a non-null compliant
input returns exactly 1. -/
theorem C10_hash_never_ok_false (hash : Hash) (alt : Option Hash) :
    (validate_hash hash = Except.ok true ∨ validate_hash hash = Except.error SHA256) ∧
    ((validate_hash hash).isOk = true →
      (ws_nist_validate_hash (some hash) alt).fst = 1) := by
  constructor
  · rw [validate_hash_eq]
    by_cases hc : hash.n / 2 ≤ 111 <;> simp [hc]
  · intro hok
    cases hv : validate_hash hash with
    | error r => rw [hv] at hok; simp [Except.isOk, Except.toBool] at hok
    | ok b =>
      have hb := validate_hash_ok hash b hv
      subst hb
      simp [ws_nist_validate_hash, hv]

theorem C10_witness :
    (ws_nist_validate_hash (some SHA256) none).fst = 1 :=
  (C10_hash_never_ok_false SHA256 none).2 (by rfl)

/-- C4 counterexample: under the NIST guideline the Ok branch does not
carry a primitive of the family under test. Mirroring the source result
types Result of bool and Hash, and Result of unit and Symmetric, the Ok
payload of validate_hash is the boolean true and the Ok payload of
validate_symmetric is the unit value, so the claim that both branches
carry a primitive of the same family fails on these two compliant
inputs. -/
theorem C4_counterexample :
    validate_hash SHA256 = Except.ok true ∧
    validate_symmetric AES128 2024 = Except.ok () := ⟨rfl, rfl⟩

/-- C4 amended: the Err branch of every validation operation carries a
primitive of the same family (always SHA256 for hashes and AES128 for
symmetric keys under NIST), and the Guide selector preserves the Ecc or
Ifc family tag in both branches for every standard implementation; the
Ok branch of the NIST operations, however, carries a boolean or unit
success marker rather than a primitive. -/
theorem C4_err_branch_same_family (hash : Hash) (key : Symmetric)
    (expiry : Nat) (bsiImpl cnsaImpl : StandardImpl) (g : Guide)
    (ctx : Context) (a : Asymmetric) :
    (validate_hash hash = Except.ok true ∨
      validate_hash hash = Except.error SHA256) ∧
    (validate_symmetric key expiry = Except.ok () ∨
      validate_symmetric key expiry = Except.error AES128) ∧
    preservesFamily a (validate_signature_algorithm bsiImpl cnsaImpl g ctx a) = true := by
  refine ⟨?_, ?_, ?_⟩
  · rw [validate_hash_eq]
    by_cases hc : hash.n / 2 ≤ 111
    · right; rw [if_pos hc]
    · left; rw [if_neg hc]
  · rw [validate_symmetric_eq]
    by_cases h1 : key.security = 112 ∧ expiry ≤ 2023
    · left; rw [if_pos h1]
    · by_cases h2 : key.security ≤ 127
      · right; rw [if_neg h1, if_pos h2]
      · left; rw [if_neg h1, if_neg h2]
  · cases g with
    | bsi =>
      cases a with
      | ecc inst =>
        cases hv : bsiImpl.validateEcc ctx inst <;>
          simp [validate_signature_algorithm, hv, preservesFamily,
            Asymmetric.sameFamily]
      | ifc inst =>
        cases hv : bsiImpl.validateIfc ctx inst <;>
          simp [validate_signature_algorithm, hv, preservesFamily,
            Asymmetric.sameFamily]
    | cnsa =>
      cases a with
      | ecc inst =>
        cases hv : cnsaImpl.validateEcc ctx inst <;>
          simp [validate_signature_algorithm, hv, preservesFamily,
            Asymmetric.sameFamily]
      | ifc inst =>
        cases hv : cnsaImpl.validateIfc ctx inst <;>
          simp [validate_signature_algorithm, hv, preservesFamily,
            Asymmetric.sameFamily]

/-- C6 counterexample: strength monotonicity fails for the symmetric
family under a fixed context with year 2023: strength 120 is at least
strength 112, strength 112 is compliant at year 2023, yet strength 120
is not. -/
theorem C6_counterexample :
    (Symmetric.mk 112).security ≤ (Symmetric.mk 120).security ∧
    validate_symmetric ⟨112⟩ 2023 = Except.ok () ∧
    validate_symmetric ⟨120⟩ 2023 = Except.error AES128 :=
  ⟨by decide, rfl, rfl⟩

/-- C6 amended: monotonicity in strength holds for the hash family (the
family where strength is the sole criterion), and for the symmetric
family whenever the year is 2024 or later, i.e., once the year-gated
exception for strength 112 has lapsed; at years up to 2023 the exception
makes strength 112 compliant while strengths 113 to 127 are not. -/
theorem C6_monotonicity (a b : Hash) (k l : Symmetric) (expiry : Nat) :
    (b.n >>> 1 ≤ a.n >>> 1 → validate_hash b = Except.ok true →
      validate_hash a = Except.ok true) ∧
    (2024 ≤ expiry → l.security ≤ k.security →
      validate_symmetric l expiry = Except.ok () →
      validate_symmetric k expiry = Except.ok ()) := by
  constructor
  · intro hle hb
    have hle2 : b.n / 2 ≤ a.n / 2 := by
      simpa [Nat.shiftRight_eq_div_pow] using hle
    rw [validate_hash_eq] at hb ⊢
    by_cases hcb : b.n / 2 ≤ 111
    · rw [if_pos hcb] at hb
      exact Except.noConfusion hb
    · rw [if_neg (by omega)]
  · intro hy hle hl
    rw [validate_symmetric_eq] at hl ⊢
    have h1 : ¬(l.security = 112 ∧ expiry ≤ 2023) := by omega
    rw [if_neg h1] at hl
    by_cases h2 : l.security ≤ 127
    · rw [if_pos h2] at hl
      exact Except.noConfusion hl
    · rw [if_neg (by omega), if_neg (by omega)]

theorem C6_witness :
    validate_hash ⟨512⟩ = Except.ok true ∧
    validate_symmetric ⟨256⟩ 2024 = Except.ok () :=
  ⟨(C6_monotonicity ⟨512⟩ ⟨256⟩ ⟨256⟩ ⟨128⟩ 2024).1 (by decide) rfl,
   (C6_monotonicity ⟨512⟩ ⟨256⟩ ⟨256⟩ ⟨128⟩ 2024).2 (by decide) (by decide) rfl⟩

/-- C8: the C-callable entry points return -1 on a null required input
pointer, 1 on a non-null compliant input, and 0 on a non-null
noncompliant input, writing the recommended replacement through the
output pointer exactly when that pointer is not null; a null output
pointer is not an error. -/
theorem C8_ffi_contract (hash : Hash) (key : Symmetric) (expiry : Nat)
    (altH : Option Hash) (altS : Option Symmetric) :
    (ws_nist_validate_hash none altH = (-1, altH)) ∧
    (ws_nist_validate_symmetric none expiry altS = (-1, altS)) ∧
    ((validate_hash hash).isOk = true →
      ws_nist_validate_hash (some hash) altH = (1, altH)) ∧
    ((validate_symmetric key expiry).isOk = true →
      ws_nist_validate_symmetric (some key) expiry altS = (1, altS)) ∧
    (∀ r, validate_hash hash = Except.error r →
      ws_nist_validate_hash (some hash) none = (0, none) ∧
      ∀ v, ws_nist_validate_hash (some hash) (some v) = (0, some r)) ∧
    (∀ r, validate_symmetric key expiry = Except.error r →
      ws_nist_validate_symmetric (some key) expiry none = (0, none) ∧
      ∀ v, ws_nist_validate_symmetric (some key) expiry (some v) = (0, some r)) := by
  refine ⟨rfl, rfl, ?_, ?_, ?_, ?_⟩
  · intro hok
    cases hv : validate_hash hash with
    | error r =>
      rw [hv] at hok
      exact absurd hok (by simp [Except.isOk, Except.toBool])
    | ok b =>
      have hb := validate_hash_ok hash b hv
      subst hb
      simp [ws_nist_validate_hash, hv]
  · intro hok
    cases hv : validate_symmetric key expiry with
    | error r =>
      rw [hv] at hok
      exact absurd hok (by simp [Except.isOk, Except.toBool])
    | ok u =>
      cases u
      simp [ws_nist_validate_symmetric, hv]
  · intro r hr
    exact ⟨by simp [ws_nist_validate_hash, hr],
      fun v => by simp [ws_nist_validate_hash, hr]⟩
  · intro r hr
    exact ⟨by simp [ws_nist_validate_symmetric, hr],
      fun v => by simp [ws_nist_validate_symmetric, hr]⟩

theorem C8_witness :
    ws_nist_validate_hash none (some SHA256) = (-1, some SHA256) ∧
    ws_nist_validate_hash (some SHA256) none = (1, none) ∧
    ws_nist_validate_hash (some ⟨128⟩) (some SHA256) = (0, some SHA256) ∧
    ws_nist_validate_hash (some ⟨128⟩) none = (0, none) ∧
    ws_nist_validate_symmetric (some ⟨80⟩) 2023 (some AES128) = (0, some AES128) :=
  ⟨(C8_ffi_contract SHA256 AES128 2023 (some SHA256) (some AES128)).1,
   (C8_ffi_contract SHA256 AES128 2023 none none).2.2.1 rfl,
   ((C8_ffi_contract ⟨128⟩ AES128 2023 none none).2.2.2.2.1 SHA256 rfl).2 SHA256,
   ((C8_ffi_contract ⟨128⟩ AES128 2023 none none).2.2.2.2.1 SHA256 rfl).1,
   ((C8_ffi_contract SHA256 ⟨80⟩ 2023 none none).2.2.2.2.2 AES128 rfl).2 AES128⟩

/-- C7: when the certificate at a path fails to parse, x509 emits the
parse error and returns Fail(path) immediately: the trace is exactly the
parse-error event, so no hash or signature check is executed for that
file. -/
theorem C7_parse_failure (bsiImpl cnsaImpl : StandardImpl) (ctx : Context)
    (path : String) (guide : Guide) (msg : String) :
    x509 bsiImpl cnsaImpl ctx path guide (Except.error msg) =
      (Status.fail path, [Event.parseError msg]) := rfl

/-- C3: for a certificate whose hash check fails and whose signature
primitive is extractable, x509 still executes and records the signature
check with its result, the failing hash check is recorded as well, and
the overall returned Status is Fail(path); moreover, unconditionally,
each check is executed and recorded in the trace whenever its primitive
is extractable, whatever the other check does. -/
theorem C3_no_short_circuit (bsiImpl cnsaImpl : StandardImpl)
    (ctx : Context) (path : String) (guide : Guide) :
    (∀ cert (got want : Hash) (sig : Asymmetric),
      cert.hashFunction = some got →
      validate_hash_function bsiImpl cnsaImpl guide ctx got = Except.error want →
      cert.signatureAlgorithm = some sig →
      (x509 bsiImpl cnsaImpl ctx path guide (Except.ok cert)).fst = Status.fail path ∧
      Event.hashCheck (Except.error want) ∈
        (x509 bsiImpl cnsaImpl ctx path guide (Except.ok cert)).snd ∧
      Event.sigCheck (validate_signature_algorithm bsiImpl cnsaImpl guide ctx sig) ∈
        (x509 bsiImpl cnsaImpl ctx path guide (Except.ok cert)).snd) ∧
    (∀ (c : Certificate) (h : Hash), c.hashFunction = some h →
      Event.hashCheck (validate_hash_function bsiImpl cnsaImpl guide ctx h) ∈
        (x509 bsiImpl cnsaImpl ctx path guide (Except.ok c)).snd) ∧
    (∀ (c : Certificate) (s : Asymmetric), c.signatureAlgorithm = some s →
      Event.sigCheck (validate_signature_algorithm bsiImpl cnsaImpl guide ctx s) ∈
        (x509 bsiImpl cnsaImpl ctx path guide (Except.ok c)).snd) := by
  refine ⟨?_, ?_, ?_⟩
  · intro cert got want sig hhash hfail hsig
    simp only [x509, Certificate.extract_hash_function,
      Certificate.extract_signature_algorithm, hhash, hsig, hashStep, hfail,
      sigStep]
    cases hv : validate_signature_algorithm bsiImpl cnsaImpl guide ctx sig <;>
      simp [hv]
  · intro c h hh
    cases hv : validate_hash_function bsiImpl cnsaImpl guide ctx h <;>
      simp [x509, Certificate.extract_hash_function,
        Certificate.extract_signature_algorithm, hh, hashStep, hv]
  · intro c s hs
    cases hv : validate_signature_algorithm bsiImpl cnsaImpl guide ctx s <;>
      simp [x509, Certificate.extract_hash_function,
        Certificate.extract_signature_algorithm, hs, sigStep, hv]

theorem C3_witness :
    (x509 rejectAll acceptAll ⟨2023⟩ "cert.pem" Guide.bsi
      (Except.ok ⟨some SHA256, some (Asymmetric.ecc P256)⟩)).fst =
        Status.fail "cert.pem" ∧
    Event.hashCheck (Except.error SHA256) ∈
      (x509 rejectAll acceptAll ⟨2023⟩ "cert.pem" Guide.bsi
        (Except.ok ⟨some SHA256, some (Asymmetric.ecc P256)⟩)).snd ∧
    Event.sigCheck (validate_signature_algorithm rejectAll acceptAll Guide.bsi
        ⟨2023⟩ (Asymmetric.ecc P256)) ∈
      (x509 rejectAll acceptAll ⟨2023⟩ "cert.pem" Guide.bsi
        (Except.ok ⟨some SHA256, some (Asymmetric.ecc P256)⟩)).snd ∧
    Event.hashCheck (validate_hash_function rejectAll acceptAll Guide.bsi
        ⟨2023⟩ ⟨512⟩) ∈
      (x509 rejectAll acceptAll ⟨2023⟩ "cert.pem" Guide.bsi
        (Except.ok ⟨some ⟨512⟩, none⟩)).snd ∧
    Event.sigCheck (validate_signature_algorithm rejectAll acceptAll Guide.bsi
        ⟨2023⟩ (Asymmetric.ecc P384)) ∈
      (x509 rejectAll acceptAll ⟨2023⟩ "cert.pem" Guide.bsi
        (Except.ok ⟨none, some (Asymmetric.ecc P384)⟩)).snd :=
  have T := C3_no_short_circuit rejectAll acceptAll ⟨2023⟩ "cert.pem" Guide.bsi
  have hmain := T.1 ⟨some SHA256, some (Asymmetric.ecc P256)⟩ SHA256 SHA256
    (Asymmetric.ecc P256) rfl rfl rfl
  ⟨hmain.1, hmain.2.1, hmain.2.2,
   T.2.1 ⟨some ⟨512⟩, none⟩ ⟨512⟩ rfl,
   T.2.2 ⟨none, some (Asymmetric.ecc P384)⟩ (Asymmetric.ecc P384) rfl⟩

/-- C9: the running accumulator of x509 starts at Ok(path) and is
monotonic: each check block maps Fail(path) to Fail(path) and never maps
any status back to Ok, and the returned Status is Ok(path) exactly when
no recorded check failed. -/
theorem C9_accumulator_monotonic (bsiImpl cnsaImpl : StandardImpl)
    (ctx : Context) (path : String) (guide : Guide) (cert : Certificate) :
    ((x509 bsiImpl cnsaImpl ctx path guide (Except.ok cert)).fst = Status.ok path ↔
      ∀ e ∈ (x509 bsiImpl cnsaImpl ctx path guide (Except.ok cert)).snd,
        e.isFail = false) ∧
    (∀ pass extracted, pass = Status.fail path →
      (hashStep bsiImpl cnsaImpl guide ctx path pass extracted).fst = Status.fail path) ∧
    (∀ pass extracted, pass = Status.fail path →
      (sigStep bsiImpl cnsaImpl guide ctx path pass extracted).fst = Status.fail path) := by
  refine ⟨?_, ?_, ?_⟩
  · simp only [x509, Certificate.extract_hash_function,
      Certificate.extract_signature_algorithm]
    cases hh : cert.hashFunction with
    | none =>
      cases hs : cert.signatureAlgorithm with
      | none => simp [hashStep, sigStep, Event.isFail]
      | some sig =>
        cases hv : validate_signature_algorithm bsiImpl cnsaImpl guide ctx sig <;>
          simp [hashStep, sigStep, hv, Event.isFail]
    | some got =>
      cases hg : validate_hash_function bsiImpl cnsaImpl guide ctx got with
      | error w =>
        cases hs : cert.signatureAlgorithm with
        | none => simp [hashStep, sigStep, hg, Event.isFail]
        | some sig =>
          cases hv : validate_signature_algorithm bsiImpl cnsaImpl guide ctx sig <;>
            simp [hashStep, sigStep, hg, hv, Event.isFail]
      | ok w =>
        cases hs : cert.signatureAlgorithm with
        | none => simp [hashStep, sigStep, hg, Event.isFail]
        | some sig =>
          cases hv : validate_signature_algorithm bsiImpl cnsaImpl guide ctx sig <;>
            simp [hashStep, sigStep, hg, hv, Event.isFail]
  · intro pass extracted hp
    subst hp
    cases extracted with
    | none => rfl
    | some got =>
      cases hv : validate_hash_function bsiImpl cnsaImpl guide ctx got <;>
        simp [hashStep, hv]
  · intro pass extracted hp
    subst hp
    cases extracted with
    | none => rfl
    | some got =>
      cases hv : validate_signature_algorithm bsiImpl cnsaImpl guide ctx got <;>
        simp [sigStep, hv]

theorem C9_witness :
    ((x509 acceptAll acceptAll ⟨2023⟩ "cert.pem" Guide.cnsa
      (Except.ok ⟨some SHA256, none⟩)).fst = Status.ok "cert.pem" ↔
      ∀ e ∈ (x509 acceptAll acceptAll ⟨2023⟩ "cert.pem" Guide.cnsa
        (Except.ok ⟨some SHA256, none⟩)).snd, e.isFail = false) ∧
    (hashStep acceptAll acceptAll Guide.cnsa ⟨2023⟩ "cert.pem"
      (Status.fail "cert.pem") (some SHA256)).fst = Status.fail "cert.pem" ∧
    (sigStep acceptAll acceptAll Guide.cnsa ⟨2023⟩ "cert.pem"
      (Status.fail "cert.pem") none).fst = Status.fail "cert.pem" :=
  ⟨(C9_accumulator_monotonic acceptAll acceptAll ⟨2023⟩ "cert.pem" Guide.cnsa
      ⟨some SHA256, none⟩).1,
   (C9_accumulator_monotonic acceptAll acceptAll ⟨2023⟩ "cert.pem" Guide.cnsa
      ⟨some SHA256, none⟩).2.1 (Status.fail "cert.pem") (some SHA256) rfl,
   (C9_accumulator_monotonic acceptAll acceptAll ⟨2023⟩ "cert.pem" Guide.cnsa
      ⟨some SHA256, none⟩).2.2 (Status.fail "cert.pem") none rfl⟩

end Wardstone
